import Mathlib

/-!
Verification of the MusicaAI repository.

The configuration layer (`src/music_gen_config.rs`) and the tensor helpers
(`src/tensor_ops.rs`) are embedded directly from the Rust source: `usize`
fields become `Nat`, `i64` becomes `Int`, fallible functions return `Except`.
The job-processing backend is declared in `src/backend/mod.rs` but its module
files are absent from the repository, so the queue, job state machine and
event fan-out are modelled from the specification, as marked on each
definition.
-/

namespace MusicaAI

/- ------------------------------------------------------------------ -/
/- Configuration data model, from src/music_gen_config.rs             -/
/- ------------------------------------------------------------------ -/

/-- Audio encoder configuration (struct `AudioEncoderConfig`). -/
structure AudioEncoderConfig where
  sampling_rate : Nat
  hop_length : Nat
  n_fft : Nat
deriving DecidableEq, Repr

/-- Transformer decoder configuration (struct `DecoderConfig`). -/
structure DecoderConfig where
  num_attention_heads : Nat
  num_hidden_layers : Nat
  top_k : Nat
  pad_token_id : Int
  hidden_size : Nat
deriving DecidableEq, Repr

/-- Text encoder configuration (struct `TextEncoderConfig`). -/
structure TextEncoderConfig where
  d_kv : Nat
  d_model : Nat
  max_position_embeddings : Nat
deriving DecidableEq, Repr

/-- Top-level configuration (struct `MusicGenConfig`). -/
structure MusicGenConfig where
  audio_encoder : AudioEncoderConfig
  decoder : DecoderConfig
  text_encoder : TextEncoderConfig
  batch_size : Nat
  device : String
deriving DecidableEq, Repr

/-- Error enum `ConfigError`; each variant carries its message text. -/
inductive ConfigError where
  | ValidationError (msg : String)
  | IoError (msg : String)
  | SerializationError (msg : String)
deriving DecidableEq, Repr

/- Individual default values (functions `default_*` in the source). -/

def default_sampling_rate : Nat := 44100

def default_hop_length : Nat := 512

def default_n_fft : Nat := 2048

def default_num_attention_heads : Nat := 8

def default_num_hidden_layers : Nat := 6

def default_top_k : Nat := 50

def default_pad_token_id : Int := 0

def default_hidden_size : Nat := 768

def default_d_kv : Nat := 64

def default_d_model : Nat := 768

def default_max_position_embeddings : Nat := 512

def default_batch_size : Nat := 1

def default_device : String := "cpu"

/-- Function `default_audio_encoder` from the source. -/
def default_audio_encoder : AudioEncoderConfig :=
  { sampling_rate := default_sampling_rate
    hop_length := default_hop_length
    n_fft := default_n_fft }

/-- Function `default_decoder` from the source. -/
def default_decoder : DecoderConfig :=
  { num_attention_heads := default_num_attention_heads
    num_hidden_layers := default_num_hidden_layers
    top_k := default_top_k
    pad_token_id := default_pad_token_id
    hidden_size := default_hidden_size }

/-- Function `default_text_encoder` from the source. -/
def default_text_encoder : TextEncoderConfig :=
  { d_kv := default_d_kv
    d_model := default_d_model
    max_position_embeddings := default_max_position_embeddings }

/-- Method `MusicGenConfig::default` from the source. -/
def MusicGenConfig.default : MusicGenConfig :=
  { audio_encoder := default_audio_encoder
    decoder := default_decoder
    text_encoder := default_text_encoder
    batch_size := default_batch_size
    device := default_device }

/-- Derived `Validate` impl for `AudioEncoderConfig`:
`#[validate(range(min = 8000, max = 192000))]` on `sampling_rate`
(the `validator` crate's range bounds are inclusive). -/
def AudioEncoderConfig.validate (c : AudioEncoderConfig) : Except String Unit :=
  if 8000 ≤ c.sampling_rate ∧ c.sampling_rate ≤ 192000 then Except.ok ()
  else Except.error "sampling_rate: range"

/-- Derived `Validate` impl for `DecoderConfig`:
`num_attention_heads` in `1..=32`, `num_hidden_layers` in `1..=24`. -/
def DecoderConfig.validate (c : DecoderConfig) : Except String Unit :=
  if (1 ≤ c.num_attention_heads ∧ c.num_attention_heads ≤ 32) ∧
      (1 ≤ c.num_hidden_layers ∧ c.num_hidden_layers ≤ 24) then Except.ok ()
  else Except.error "decoder: range"

/-- Derived `Validate` impl for `TextEncoderConfig`: no field carries a
`#[validate(...)]` attribute, so validation always succeeds. -/
def TextEncoderConfig.validate (_c : TextEncoderConfig) : Except String Unit :=
  Except.ok ()

/-- Inherent method `MusicGenConfig::validate`: validates the three nested
configs, mapping each failure to `ValidationError`, then rejects
`batch_size == 0`. -/
def MusicGenConfig.validate (c : MusicGenConfig) : Except ConfigError Unit :=
  match c.audio_encoder.validate with
  | Except.error e => Except.error (ConfigError.ValidationError e)
  | Except.ok () =>
    match c.decoder.validate with
    | Except.error e => Except.error (ConfigError.ValidationError e)
    | Except.ok () =>
      match c.text_encoder.validate with
      | Except.error e => Except.error (ConfigError.ValidationError e)
      | Except.ok () =>
        if c.batch_size = 0 then
          Except.error (ConfigError.ValidationError "Batch size cannot be zero")
        else Except.ok ()

/- ------------------------------------------------------------------ -/
/- JSON (de)serialization layer for the config                        -/
/- ------------------------------------------------------------------ -/

/-- JSON values, as produced by `serde_json` parsing. Numbers are modelled
as unbounded integers (matching the `Nat`/`Int` embedding of `usize`/`i64`;
float-typed JSON numbers are rejected by serde for all integer config
fields, so they are not representable here). -/
inductive Json where
  | num (n : Int)
  | str (s : String)
  | bool (b : Bool)
  | null
  | arr (xs : List Json)
  | obj (fields : List (String × Json))

/-- First binding of a key in a JSON object's field list. -/
def lookupField (fields : List (String × Json)) (k : String) : Option Json :=
  match fields with
  | [] => none
  | (k', v) :: rest => if k' = k then some v else lookupField rest k

/-- serde deserialization of a `usize` field: a non-negative integer. -/
def asUsize (j : Json) : Except String Nat :=
  match j with
  | Json.num n => if n < 0 then Except.error "invalid value: negative" else Except.ok n.toNat
  | _ => Except.error "invalid type: expected usize"

/-- serde deserialization of an `i64` field. -/
def asI64 (j : Json) : Except String Int :=
  match j with
  | Json.num n => Except.ok n
  | _ => Except.error "invalid type: expected i64"

/-- serde deserialization of a `String` field. -/
def asString (j : Json) : Except String String :=
  match j with
  | Json.str s => Except.ok s
  | _ => Except.error "invalid type: expected string"

/-- A field with `#[serde(default = "...")]`: take the default when the key
is absent, otherwise deserialize the present value. -/
def fieldOr (fields : List (String × Json)) (k : String) (dflt : α)
    (parse : Json → Except String α) : Except String α :=
  match lookupField fields k with
  | none => Except.ok dflt
  | some v => parse v

/-- serde-derived `Deserialize` for `AudioEncoderConfig`: every field has a
`#[serde(default = ...)]`; unknown keys are ignored (serde's default). -/
def deserializeAudioEncoder (j : Json) : Except String AudioEncoderConfig :=
  match j with
  | Json.obj fs => do
    let sr ← fieldOr fs "sampling_rate" default_sampling_rate asUsize
    let hl ← fieldOr fs "hop_length" default_hop_length asUsize
    let nf ← fieldOr fs "n_fft" default_n_fft asUsize
    Except.ok { sampling_rate := sr, hop_length := hl, n_fft := nf }
  | _ => Except.error "invalid type: expected AudioEncoderConfig map"

/-- serde-derived `Deserialize` for `DecoderConfig`. -/
def deserializeDecoder (j : Json) : Except String DecoderConfig :=
  match j with
  | Json.obj fs => do
    let nh ← fieldOr fs "num_attention_heads" default_num_attention_heads asUsize
    let nl ← fieldOr fs "num_hidden_layers" default_num_hidden_layers asUsize
    let tk ← fieldOr fs "top_k" default_top_k asUsize
    let pt ← fieldOr fs "pad_token_id" default_pad_token_id asI64
    let hs ← fieldOr fs "hidden_size" default_hidden_size asUsize
    Except.ok { num_attention_heads := nh, num_hidden_layers := nl, top_k := tk,
                pad_token_id := pt, hidden_size := hs }
  | _ => Except.error "invalid type: expected DecoderConfig map"

/-- serde-derived `Deserialize` for `TextEncoderConfig`. -/
def deserializeTextEncoder (j : Json) : Except String TextEncoderConfig :=
  match j with
  | Json.obj fs => do
    let dk ← fieldOr fs "d_kv" default_d_kv asUsize
    let dm ← fieldOr fs "d_model" default_d_model asUsize
    let mp ← fieldOr fs "max_position_embeddings" default_max_position_embeddings asUsize
    Except.ok { d_kv := dk, d_model := dm, max_position_embeddings := mp }
  | _ => Except.error "invalid type: expected TextEncoderConfig map"

/-- serde-derived `Deserialize` for `MusicGenConfig`: every field carries a
`#[serde(default = "...")]` attribute. -/
def deserializeMusicGenConfig (j : Json) : Except String MusicGenConfig :=
  match j with
  | Json.obj fs => do
    let ae ← fieldOr fs "audio_encoder" default_audio_encoder deserializeAudioEncoder
    let de ← fieldOr fs "decoder" default_decoder deserializeDecoder
    let te ← fieldOr fs "text_encoder" default_text_encoder deserializeTextEncoder
    let bs ← fieldOr fs "batch_size" default_batch_size asUsize
    let dv ← fieldOr fs "device" default_device asString
    Except.ok { audio_encoder := ae, decoder := de, text_encoder := te,
                batch_size := bs, device := dv }
  | _ => Except.error "invalid type: expected MusicGenConfig map"

/-- serde-derived `Serialize` for `AudioEncoderConfig`. -/
def serializeAudioEncoder (c : AudioEncoderConfig) : Json :=
  Json.obj [("sampling_rate", Json.num c.sampling_rate),
            ("hop_length", Json.num c.hop_length),
            ("n_fft", Json.num c.n_fft)]

/-- serde-derived `Serialize` for `DecoderConfig`. -/
def serializeDecoder (c : DecoderConfig) : Json :=
  Json.obj [("num_attention_heads", Json.num c.num_attention_heads),
            ("num_hidden_layers", Json.num c.num_hidden_layers),
            ("top_k", Json.num c.top_k),
            ("pad_token_id", Json.num c.pad_token_id),
            ("hidden_size", Json.num c.hidden_size)]

/-- serde-derived `Serialize` for `TextEncoderConfig`. -/
def serializeTextEncoder (c : TextEncoderConfig) : Json :=
  Json.obj [("d_kv", Json.num c.d_kv),
            ("d_model", Json.num c.d_model),
            ("max_position_embeddings", Json.num c.max_position_embeddings)]

/-- serde-derived `Serialize` for `MusicGenConfig`. -/
def serializeMusicGenConfig (c : MusicGenConfig) : Json :=
  Json.obj [("audio_encoder", serializeAudioEncoder c.audio_encoder),
            ("decoder", serializeDecoder c.decoder),
            ("text_encoder", serializeTextEncoder c.text_encoder),
            ("batch_size", Json.num c.batch_size),
            ("device", Json.str c.device)]

/-- What `std::fs::read_to_string` + `serde_json::from_str` can see in a
file: an unreadable file, contents that are not well-formed JSON text, or a
parsed JSON document. Well-formed JSON text corresponds bijectively to its
parsed `Json` value, so the text layer is elided. -/
inductive FileContent where
  | unreadable
  | unparsable
  | parsed (j : Json)

/-- Method `MusicGenConfig::from_file`: read the file (`?` maps failures to
`IoError`), parse the JSON into the config shape (`?` maps failures to
`SerializationError`), then run `config.validate()?` and return the config. -/
def MusicGenConfig.from_file (f : FileContent) : Except ConfigError MusicGenConfig :=
  match f with
  | FileContent.unreadable => Except.error (ConfigError.IoError "read failed")
  | FileContent.unparsable => Except.error (ConfigError.SerializationError "invalid JSON text")
  | FileContent.parsed j =>
    match deserializeMusicGenConfig j with
    | Except.error m => Except.error (ConfigError.SerializationError m)
    | Except.ok config =>
      match config.validate with
      | Except.error e => Except.error e
      | Except.ok () => Except.ok config

/-- Method `MusicGenConfig::save_to_file`: serialize with
`serde_json::to_string_pretty` and write the text; the written contents
parse back to exactly `serializeMusicGenConfig c`. -/
def MusicGenConfig.save_to_file (c : MusicGenConfig) : FileContent :=
  FileContent.parsed (serializeMusicGenConfig c)

/- ------------------------------------------------------------------ -/
/- Tensor operations, from src/tensor_ops.rs                          -/
/- ------------------------------------------------------------------ -/

/-- An `ort` tensor as seen through `try_extract_raw_tensor`: a shape and a
flat element buffer. Every tensor produced by `ort` satisfies
`shape.prod = data.length`; that invariant is carried as a hypothesis where
a theorem needs it. -/
structure Tensor (α : Type) where
  shape : List Nat
  data : List α
deriving DecidableEq, Repr

/-- Constructor `Tensor::from_array((shape, data))`: `ort` rejects a buffer whose length
does not match the element count implied by the shape. -/
def Tensor.from_array (shape : List Nat) (data : List α) : Except String (Tensor α) :=
  if shape.prod = data.length then Except.ok { shape := shape, data := data }
  else Except.error "shape and buffer size mismatch"

/-- Function `reshape_tensor` from the source: extract the raw data, reject when the
product of `new_shape` differs from the buffer length with the message
"Reshape size mismatch", otherwise rebuild via `Tensor::from_array`. -/
def reshape_tensor (t : Tensor α) (new_shape : List Nat) : Except String (Tensor α) :=
  if new_shape.prod ≠ t.data.length then Except.error "Reshape size mismatch"
  else Tensor.from_array new_shape t.data

/-- Function `dupe_zeros_along_first_dim` from the source: `shape[0] *= 2` panics on
an empty shape (modelled as `none`); otherwise the data is extended with
`data.len()` zeros and the tensor rebuilt via `Tensor::from_array`. -/
def dupe_zeros_along_first_dim [Zero α] (t : Tensor α) :
    Option (Except String (Tensor α)) :=
  match t.shape with
  | [] => none
  | d :: rest =>
    some (Tensor.from_array ((d * 2) :: rest)
      (t.data ++ List.replicate t.data.length 0))

/- ------------------------------------------------------------------ -/
/- Job-processing backend.  The modules `audio_generation_backend`,    -/
/- `audio_generation_fanout` and friends are declared in               -/
/- src/backend/mod.rs but their files are absent from the repository,  -/
/- so this part is modelled from the specification.                    -/
/- ------------------------------------------------------------------ -/

/-- Modelled from the spec: Job `status` values (spec §3, §4.2); the module
`audio_generation_backend` declared in src/backend/mod.rs is missing. -/
inductive JobStatus where
  | Queued
  | Running
  | Streaming
  | Completed
  | Failed
  | Cancelled
deriving DecidableEq, Repr

/-- Modelled from the spec: `Completed`, `Failed` and `Cancelled` are the
terminal states. -/
def JobStatus.isTerminal : JobStatus → Bool
  | JobStatus.Completed => true
  | JobStatus.Failed => true
  | JobStatus.Cancelled => true
  | _ => false

/-- Modelled from the spec: position of a status along
`Queued → Running → Streaming → terminal`; used to state monotonicity. -/
def JobStatus.rank : JobStatus → Nat
  | JobStatus.Queued => 0
  | JobStatus.Running => 1
  | JobStatus.Streaming => 2
  | _ => 3

/-- Modelled from the spec: a Job's terminal `result` — either a reference
to the produced audio artifact or an error description (spec §3). -/
inductive JobResult where
  | artifact (r : String)
  | failure (msg : String)
deriving DecidableEq, Repr

/-- Modelled from the spec: a Job (spec §3) — immutable `id` and `request`,
a `status`, and a `result` that is absent until a terminal transition. -/
structure Job where
  id : Nat
  prompt : String
  status : JobStatus
  result : Option JobResult
deriving DecidableEq, Repr

/-- Modelled from the spec: the operations the JobProcessor worker loop
performs on one Job (spec §4.1–§4.2): start it, emit its first output,
finish with an artifact, finish with a failure, or observe cancellation. -/
inductive JobOp where
  | start
  | firstOutput
  | complete (artifact : String)
  | fail (msg : String)
  | cancel
deriving DecidableEq, Repr

/-- Modelled from the spec: effect of one operation on one Job. Terminal
states are final, so every operation leaves a terminal Job unchanged;
`result` is written exactly on the transition into a terminal state. -/
def Job.applyOp (j : Job) (op : JobOp) : Job :=
  match op, j.status with
  | JobOp.start, JobStatus.Queued => { j with status := JobStatus.Running }
  | JobOp.firstOutput, JobStatus.Running => { j with status := JobStatus.Streaming }
  | JobOp.complete a, JobStatus.Running =>
    { j with status := JobStatus.Completed, result := some (JobResult.artifact a) }
  | JobOp.complete a, JobStatus.Streaming =>
    { j with status := JobStatus.Completed, result := some (JobResult.artifact a) }
  | JobOp.fail m, JobStatus.Running =>
    { j with status := JobStatus.Failed, result := some (JobResult.failure m) }
  | JobOp.fail m, JobStatus.Streaming =>
    { j with status := JobStatus.Failed, result := some (JobResult.failure m) }
  | JobOp.cancel, JobStatus.Queued =>
    { j with status := JobStatus.Cancelled, result := some (JobResult.failure "cancelled") }
  | JobOp.cancel, JobStatus.Running =>
    { j with status := JobStatus.Cancelled, result := some (JobResult.failure "cancelled") }
  | JobOp.cancel, JobStatus.Streaming =>
    { j with status := JobStatus.Cancelled, result := some (JobResult.failure "cancelled") }
  | _, _ => j

/-- Modelled from the spec: admission errors of `submit` (spec §4.1, §7). -/
inductive AdmissionError where
  | InvalidRequest
  | QueueFull
deriving DecidableEq, Repr

/-- Modelled from the spec: the bounded JobQueue (spec §4.1) — a capacity
`C`, a fresh-id counter, and the pending-plus-in-flight jobs it holds. -/
structure JobQueue where
  capacity : Nat
  nextId : Nat
  jobs : List Job
deriving DecidableEq, Repr

/-- Modelled from the spec: `submit(request)` — reject an empty prompt with
`InvalidRequest` before any queue interaction; reject with `QueueFull` when
the queue already holds `capacity` jobs; otherwise admit a fresh `Queued`
job and return its id. -/
def JobQueue.submit (q : JobQueue) (prompt : String) :
    Except AdmissionError (Nat × JobQueue) :=
  if prompt = "" then Except.error AdmissionError.InvalidRequest
  else if q.capacity ≤ q.jobs.length then Except.error AdmissionError.QueueFull
  else Except.ok (q.nextId,
    { q with nextId := q.nextId + 1,
             jobs := { id := q.nextId, prompt := prompt,
                       status := JobStatus.Queued, result := none } :: q.jobs })

/-- Modelled from the spec: a job that reaches a terminal state leaves the
queue's pending-plus-in-flight accounting. -/
def JobQueue.finish (q : JobQueue) (jid : Nat) : JobQueue :=
  { q with jobs := q.jobs.filter (fun j => j.id ≠ jid) }

/-- Modelled from the spec: Event payloads (spec §3) — progress, partial
audio chunk, or one of the three terminal markers. The progress fraction is
modelled as a percentage in `Nat`. -/
inductive EventPayload where
  | Progress (percent : Nat)
  | Chunk (bytes : List Nat)
  | Done (artifact : String)
  | Failure (kind msg : String)
  | CancelMark
deriving DecidableEq, Repr

/-- Modelled from the spec: an Event — job id, per-job sequence number
starting at 0, and a payload. -/
structure Event where
  job_id : Nat
  sequence : Nat
  payload : EventPayload
deriving DecidableEq, Repr

/-- Modelled from the spec: the three terminal payloads. -/
def EventPayload.isTerminal : EventPayload → Bool
  | EventPayload.Done _ => true
  | EventPayload.Failure _ _ => true
  | EventPayload.CancelMark => true
  | _ => false

/-- Modelled from the spec: a progress/partial-output unit yielded by the
InferencePipeline (spec §6). -/
inductive PipelineItem where
  | Progress (percent : Nat)
  | Chunk (bytes : List Nat)
deriving DecidableEq, Repr

/-- Modelled from the spec: how one job's run ends — success, failure, or
observed cancellation. -/
inductive Outcome where
  | Done (artifact : String)
  | Failure (kind msg : String)
  | Cancelled
deriving DecidableEq, Repr

/-- Modelled from the spec: payload of a non-terminal pipeline unit. -/
def itemPayload : PipelineItem → EventPayload
  | PipelineItem.Progress p => EventPayload.Progress p
  | PipelineItem.Chunk b => EventPayload.Chunk b

/-- Modelled from the spec: terminal payload of an outcome. -/
def outcomePayload : Outcome → EventPayload
  | Outcome.Done a => EventPayload.Done a
  | Outcome.Failure k m => EventPayload.Failure k m
  | Outcome.Cancelled => EventPayload.CancelMark

/-- Modelled from the spec: the worker loop publishes one Event per pipeline
unit, each with the next sequence number, then exactly one terminal Event
(spec §4.2). `seq` is the next sequence number to assign. -/
def eventsFrom (jid : Nat) (seq : Nat) :
    List PipelineItem → Outcome → List Event
  | [], oc => [{ job_id := jid, sequence := seq, payload := outcomePayload oc }]
  | it :: rest, oc =>
    { job_id := jid, sequence := seq, payload := itemPayload it } ::
      eventsFrom jid (seq + 1) rest oc

/-- Modelled from the spec: the full published event stream of one job,
sequence numbers starting at 0. -/
def jobEvents (jid : Nat) (items : List PipelineItem) (oc : Outcome) : List Event :=
  eventsFrom jid 0 items oc

/-- Modelled from the spec: a subscriber that attaches after `k` events have
already been published receives only events from that point forward (spec
§4.3, no historical replay); a subscriber present from the start has
`k = 0`. -/
def deliveredEvents (jid : Nat) (items : List PipelineItem) (oc : Outcome)
    (k : Nat) : List Event :=
  (jobEvents jid items oc).drop k

/- ------------------------------------------------------------------ -/
/- Helper lemmas                                                      -/
/- ------------------------------------------------------------------ -/

lemma except_bind_eq_ok {α β ε : Type} (x : Except ε α) (f : α → Except ε β) (b : β) :
    (x >>= f) = Except.ok b ↔ ∃ a, x = Except.ok a ∧ f a = Except.ok b := by
  cases x <;> simp [Bind.bind, Except.bind]

lemma fieldOr_none {α : Type} {fields : List (String × Json)} {k : String}
    (dflt : α) (parse : Json → Except String α)
    (h : lookupField fields k = none) :
    fieldOr fields k dflt parse = Except.ok dflt := by
  simp [fieldOr, h]

lemma fieldOr_ok_of_none {α : Type} {fields : List (String × Json)} {k : String}
    {dflt a : α} {parse : Json → Except String α}
    (hx : fieldOr fields k dflt parse = Except.ok a)
    (h : lookupField fields k = none) : a = dflt := by
  rw [fieldOr_none dflt parse h] at hx
  injection hx with h2
  exact h2.symm

lemma audio_validate_ok_iff (c : AudioEncoderConfig) :
    c.validate = Except.ok () ↔
      8000 ≤ c.sampling_rate ∧ c.sampling_rate ≤ 192000 := by
  unfold AudioEncoderConfig.validate
  split_ifs with h <;> simp [h]

lemma decoder_validate_ok_iff (c : DecoderConfig) :
    c.validate = Except.ok () ↔
      (1 ≤ c.num_attention_heads ∧ c.num_attention_heads ≤ 32) ∧
      (1 ≤ c.num_hidden_layers ∧ c.num_hidden_layers ≤ 24) := by
  unfold DecoderConfig.validate
  split_ifs with h <;> simp [h]

lemma validate_error_is_validation (c : MusicGenConfig) (e : ConfigError)
    (h : c.validate = Except.error e) : ∃ m, e = ConfigError.ValidationError m := by
  unfold MusicGenConfig.validate AudioEncoderConfig.validate DecoderConfig.validate
    TextEncoderConfig.validate at h
  split_ifs at h <;> simp_all
  all_goals exact ⟨_, h.symm⟩

lemma asUsize_natCast (n : Nat) : asUsize (Json.num (n : Int)) = Except.ok n := by
  simp only [asUsize]
  split_ifs with h
  · omega
  · simp

lemma audio_roundtrip (c : AudioEncoderConfig) :
    deserializeAudioEncoder (serializeAudioEncoder c) = Except.ok c := by
  simp [deserializeAudioEncoder, serializeAudioEncoder, fieldOr, lookupField,
    asUsize_natCast, Bind.bind, Except.bind]

lemma decoder_roundtrip (c : DecoderConfig) :
    deserializeDecoder (serializeDecoder c) = Except.ok c := by
  simp [deserializeDecoder, serializeDecoder, fieldOr, lookupField,
    asUsize_natCast, asI64, Bind.bind, Except.bind]

lemma text_roundtrip (c : TextEncoderConfig) :
    deserializeTextEncoder (serializeTextEncoder c) = Except.ok c := by
  simp [deserializeTextEncoder, serializeTextEncoder, fieldOr, lookupField,
    asUsize_natCast, Bind.bind, Except.bind]

lemma config_roundtrip (c : MusicGenConfig) :
    deserializeMusicGenConfig (serializeMusicGenConfig c) = Except.ok c := by
  simp [deserializeMusicGenConfig, serializeMusicGenConfig, fieldOr, lookupField,
    audio_roundtrip, decoder_roundtrip, text_roundtrip, asUsize_natCast, asString,
    Bind.bind, Except.bind]

/- ------------------------------------------------------------------ -/
/- Claims                                                             -/
/- ------------------------------------------------------------------ -/

/-- C1: `MusicGenConfig::validate` returns `Ok` exactly when
`audio_encoder.sampling_rate ∈ 8000..=192000`,
`decoder.num_attention_heads ∈ 1..=32`,
`decoder.num_hidden_layers ∈ 1..=24` and `batch_size ≠ 0`; every failure is
a `ConfigError::ValidationError`; no other field constrains the result. -/
theorem C1_validate_ok_iff_bounds (c : MusicGenConfig) :
    (c.validate = Except.ok () ↔
      (8000 ≤ c.audio_encoder.sampling_rate ∧ c.audio_encoder.sampling_rate ≤ 192000 ∧
       1 ≤ c.decoder.num_attention_heads ∧ c.decoder.num_attention_heads ≤ 32 ∧
       1 ≤ c.decoder.num_hidden_layers ∧ c.decoder.num_hidden_layers ≤ 24 ∧
       c.batch_size ≠ 0)) ∧
    (∀ e, c.validate = Except.error e → ∃ m, e = ConfigError.ValidationError m) := by
  unfold MusicGenConfig.validate AudioEncoderConfig.validate DecoderConfig.validate
    TextEncoderConfig.validate
  split_ifs with h1 h2 h3 <;> simp_all

/-- C1 witness: the default configuration meets the bounds, so `validate`
returns `Ok` on it. -/
theorem C1_validate_ok_iff_bounds_witness :
    MusicGenConfig.default.validate = Except.ok () :=
  (C1_validate_ok_iff_bounds MusicGenConfig.default).1.mpr (by decide)

/-- C3: the default configuration is within the validated ranges:
`MusicGenConfig::default().validate()` is `Ok`. -/
theorem C3_default_config_valid : MusicGenConfig.default.validate = Except.ok () := rfl

/-- C2: `MusicGenConfig::from_file` returns `Ok(c)` only when the contents
parse into the config shape and `c` passes `validate`; an unreadable file
yields `IoError`, unparsable contents yield `SerializationError`, and a
parsed config that fails validation yields `ValidationError` — so
`from_file` never returns a configuration that fails `validate`. -/
theorem C2_from_file_rejects_invalid :
    (∀ f c, MusicGenConfig.from_file f = Except.ok c → c.validate = Except.ok ()) ∧
    (∃ m, MusicGenConfig.from_file FileContent.unreadable =
      Except.error (ConfigError.IoError m)) ∧
    (∃ m, MusicGenConfig.from_file FileContent.unparsable =
      Except.error (ConfigError.SerializationError m)) ∧
    (∀ j m, deserializeMusicGenConfig j = Except.error m →
      MusicGenConfig.from_file (FileContent.parsed j) =
        Except.error (ConfigError.SerializationError m)) ∧
    (∀ j c, deserializeMusicGenConfig j = Except.ok c → c.validate ≠ Except.ok () →
      ∃ m, MusicGenConfig.from_file (FileContent.parsed j) =
        Except.error (ConfigError.ValidationError m)) := by
  refine ⟨?_, ⟨_, rfl⟩, ⟨_, rfl⟩, ?_, ?_⟩
  · intro f c h
    cases f with
    | unreadable => simp [MusicGenConfig.from_file] at h
    | unparsable => simp [MusicGenConfig.from_file] at h
    | parsed j =>
      simp only [MusicGenConfig.from_file] at h
      cases hde : deserializeMusicGenConfig j with
      | error m => simp only [hde] at h; simp at h
      | ok c' =>
        simp only [hde] at h
        cases hv : c'.validate with
        | error e => simp only [hv] at h; simp at h
        | ok u =>
          cases u
          simp only [hv] at h
          simp at h
          rw [← h]
          exact hv
  · intro j m hde
    simp [MusicGenConfig.from_file, hde]
  · intro j c hde hv
    simp only [MusicGenConfig.from_file, hde]
    cases hvv : c.validate with
    | error e =>
      obtain ⟨m, rfl⟩ := validate_error_is_validation c e hvv
      exact ⟨m, rfl⟩
    | ok u => exact absurd hvv hv

/-- C2 witness: a config whose `batch_size` is 0 parses but is rejected by
`from_file` with a `ValidationError`. -/
theorem C2_from_file_rejects_invalid_witness :
    ∃ m, MusicGenConfig.from_file
        (FileContent.parsed (Json.obj [("batch_size", Json.num 0)])) =
      Except.error (ConfigError.ValidationError m) :=
  C2_from_file_rejects_invalid.2.2.2.2 (Json.obj [("batch_size", Json.num 0)])
    { audio_encoder := default_audio_encoder, decoder := default_decoder,
      text_encoder := default_text_encoder, batch_size := 0,
      device := default_device } rfl (fun h => Except.noConfusion h)

/-- C8: for every configuration that passes `validate`, saving with
`save_to_file` and reading back with `from_file` returns `Ok` of a
field-for-field equal configuration. -/
theorem C8_save_load_roundtrip (c : MusicGenConfig)
    (hv : c.validate = Except.ok ()) :
    MusicGenConfig.from_file c.save_to_file = Except.ok c := by
  simp only [MusicGenConfig.from_file, MusicGenConfig.save_to_file, config_roundtrip, hv]

/-- C8 witness: the default configuration round-trips through save and
load. -/
theorem C8_save_load_roundtrip_witness :
    MusicGenConfig.from_file MusicGenConfig.default.save_to_file =
      Except.ok MusicGenConfig.default :=
  C8_save_load_roundtrip MusicGenConfig.default rfl

/-- C4: every configuration field has a serde default, so the empty JSON
object deserializes to exactly `MusicGenConfig::default()`, and any field
omitted from the input JSON — at the top level or inside a nested config —
takes its documented default value. -/
theorem C4_serde_defaults :
    deserializeMusicGenConfig (Json.obj []) = Except.ok MusicGenConfig.default ∧
    (∀ fs c, deserializeMusicGenConfig (Json.obj fs) = Except.ok c →
      (lookupField fs "audio_encoder" = none → c.audio_encoder = default_audio_encoder) ∧
      (lookupField fs "decoder" = none → c.decoder = default_decoder) ∧
      (lookupField fs "text_encoder" = none → c.text_encoder = default_text_encoder) ∧
      (lookupField fs "batch_size" = none → c.batch_size = default_batch_size) ∧
      (lookupField fs "device" = none → c.device = default_device)) ∧
    (∀ fs a, deserializeAudioEncoder (Json.obj fs) = Except.ok a →
      (lookupField fs "sampling_rate" = none → a.sampling_rate = default_sampling_rate) ∧
      (lookupField fs "hop_length" = none → a.hop_length = default_hop_length) ∧
      (lookupField fs "n_fft" = none → a.n_fft = default_n_fft)) ∧
    (∀ fs d, deserializeDecoder (Json.obj fs) = Except.ok d →
      (lookupField fs "num_attention_heads" = none →
        d.num_attention_heads = default_num_attention_heads) ∧
      (lookupField fs "num_hidden_layers" = none →
        d.num_hidden_layers = default_num_hidden_layers) ∧
      (lookupField fs "top_k" = none → d.top_k = default_top_k) ∧
      (lookupField fs "pad_token_id" = none → d.pad_token_id = default_pad_token_id) ∧
      (lookupField fs "hidden_size" = none → d.hidden_size = default_hidden_size)) ∧
    (∀ fs t, deserializeTextEncoder (Json.obj fs) = Except.ok t →
      (lookupField fs "d_kv" = none → t.d_kv = default_d_kv) ∧
      (lookupField fs "d_model" = none → t.d_model = default_d_model) ∧
      (lookupField fs "max_position_embeddings" = none →
        t.max_position_embeddings = default_max_position_embeddings)) := by
  refine ⟨rfl, ?_, ?_, ?_, ?_⟩
  · intro fs c h
    simp only [deserializeMusicGenConfig] at h
    rw [except_bind_eq_ok] at h; obtain ⟨ae, hae, h⟩ := h
    rw [except_bind_eq_ok] at h; obtain ⟨de, hde, h⟩ := h
    rw [except_bind_eq_ok] at h; obtain ⟨te, hte, h⟩ := h
    rw [except_bind_eq_ok] at h; obtain ⟨bs, hbs, h⟩ := h
    rw [except_bind_eq_ok] at h; obtain ⟨dv, hdv, h⟩ := h
    injection h with h; subst h
    exact ⟨fun hk => fieldOr_ok_of_none hae hk, fun hk => fieldOr_ok_of_none hde hk,
      fun hk => fieldOr_ok_of_none hte hk, fun hk => fieldOr_ok_of_none hbs hk,
      fun hk => fieldOr_ok_of_none hdv hk⟩
  · intro fs a h
    simp only [deserializeAudioEncoder] at h
    rw [except_bind_eq_ok] at h; obtain ⟨sr, hsr, h⟩ := h
    rw [except_bind_eq_ok] at h; obtain ⟨hl, hhl, h⟩ := h
    rw [except_bind_eq_ok] at h; obtain ⟨nf, hnf, h⟩ := h
    injection h with h; subst h
    exact ⟨fun hk => fieldOr_ok_of_none hsr hk, fun hk => fieldOr_ok_of_none hhl hk,
      fun hk => fieldOr_ok_of_none hnf hk⟩
  · intro fs d h
    simp only [deserializeDecoder] at h
    rw [except_bind_eq_ok] at h; obtain ⟨nh, hnh, h⟩ := h
    rw [except_bind_eq_ok] at h; obtain ⟨nl, hnl, h⟩ := h
    rw [except_bind_eq_ok] at h; obtain ⟨tk, htk, h⟩ := h
    rw [except_bind_eq_ok] at h; obtain ⟨pt, hpt, h⟩ := h
    rw [except_bind_eq_ok] at h; obtain ⟨hs, hhs, h⟩ := h
    injection h with h; subst h
    exact ⟨fun hk => fieldOr_ok_of_none hnh hk, fun hk => fieldOr_ok_of_none hnl hk,
      fun hk => fieldOr_ok_of_none htk hk, fun hk => fieldOr_ok_of_none hpt hk,
      fun hk => fieldOr_ok_of_none hhs hk⟩
  · intro fs t h
    simp only [deserializeTextEncoder] at h
    rw [except_bind_eq_ok] at h; obtain ⟨dk, hdk, h⟩ := h
    rw [except_bind_eq_ok] at h; obtain ⟨dm, hdm, h⟩ := h
    rw [except_bind_eq_ok] at h; obtain ⟨mp, hmp, h⟩ := h
    injection h with h; subst h
    exact ⟨fun hk => fieldOr_ok_of_none hdk hk, fun hk => fieldOr_ok_of_none hdm hk,
      fun hk => fieldOr_ok_of_none hmp hk⟩

/-- C4 witness: on the empty field list the deserialized `batch_size` is the
documented default. -/
theorem C4_serde_defaults_witness :
    MusicGenConfig.default.batch_size = default_batch_size :=
  (C4_serde_defaults.2.1 [] MusicGenConfig.default rfl).2.2.2.1 rfl

/-- C9: `reshape_tensor(t, new_shape)` errors exactly when the product of
`new_shape` differs from the element count of `t`; on success the result
has shape `new_shape` and the identical data in the same order. -/
theorem C9_reshape_tensor_spec (α : Type) (t : Tensor α) (ns : List Nat) :
    ((∃ m, reshape_tensor t ns = Except.error m) ↔ ns.prod ≠ t.data.length) ∧
    (∀ r, reshape_tensor t ns = Except.ok r → r.shape = ns ∧ r.data = t.data) := by
  unfold reshape_tensor Tensor.from_array
  by_cases h : ns.prod = t.data.length <;> simp [h]

/-- C9 witness: at `t = ⟨[2, 3], [0, 1, 2, 3, 4, 5]⟩` a reshape to `[3, 2]`
succeeds with preserved data and a reshape to `[4]` fails. -/
theorem C9_reshape_tensor_spec_witness :
    (∀ r, reshape_tensor { shape := [2, 3], data := [0, 1, 2, 3, 4, 5] } [3, 2] =
        Except.ok r → r.shape = [3, 2] ∧ r.data = [0, 1, 2, 3, 4, 5]) ∧
    (∃ m, reshape_tensor { shape := [2, 3], data := ([0, 1, 2, 3, 4, 5] : List Nat) } [4] =
        Except.error m) :=
  ⟨(C9_reshape_tensor_spec Nat { shape := [2, 3], data := [0, 1, 2, 3, 4, 5] } [3, 2]).2,
   (C9_reshape_tensor_spec Nat { shape := [2, 3], data := [0, 1, 2, 3, 4, 5] } [4]).1.mpr
     (by decide)⟩

/-- C10: on any well-formed tensor with at least one dimension,
`dupe_zeros_along_first_dim` returns `Ok` of a tensor whose shape is the
input shape with the first dimension doubled and whose data is the input
data followed by an equal-length run of zeros (the rank-0 case indexes
`shape[0]` out of bounds, modelled as `none`). -/
theorem C10_dupe_zeros_spec (α : Type) [Zero α] (t : Tensor α) (d : Nat)
    (rest : List Nat) (hs : t.shape = d :: rest)
    (hv : t.shape.prod = t.data.length) :
    dupe_zeros_along_first_dim t =
      some (Except.ok { shape := (d * 2) :: rest,
                        data := t.data ++ List.replicate t.data.length 0 }) := by
  have hv' : d * rest.prod = t.data.length := by
    rw [hs] at hv; simpa [List.prod_cons] using hv
  have hlen : ((d * 2) :: rest).prod =
      (t.data ++ List.replicate t.data.length (0 : α)).length := by
    simp [List.prod_cons, List.length_append]
    calc d * 2 * rest.prod = d * rest.prod * 2 := by ring
    _ = t.data.length * 2 := by rw [hv']
    _ = t.data.length + t.data.length := by omega
  simp [dupe_zeros_along_first_dim, hs, Tensor.from_array, hlen]

/-- C10 witness: a `2 × 1` integer tensor is doubled to `4 × 1` with its
data followed by two zeros. -/
theorem C10_dupe_zeros_spec_witness :
    dupe_zeros_along_first_dim { shape := [2, 1], data := ([5, 7] : List Int) } =
      some (Except.ok { shape := [4, 1], data := [5, 7, 0, 0] }) :=
  C10_dupe_zeros_spec Int { shape := [2, 1], data := [5, 7] } 2 [1] rfl rfl

/-- C6: when the queue holds `capacity` pending-plus-in-flight jobs, the
next `submit` of a valid request fails with `QueueFull` (and does not admit
the job); once any one job has left the queue via a terminal state, a
subsequent `submit` succeeds. -/
theorem C6_queue_full_rejection (q : JobQueue) (p : String) (hp : p ≠ "")
    (hfull : q.jobs.length = q.capacity) :
    q.submit p = Except.error AdmissionError.QueueFull ∧
    (∀ j, j ∈ q.jobs → ∃ i q', (q.finish j.id).submit p = Except.ok (i, q')) := by
  constructor
  · simp [JobQueue.submit, hp, hfull]
  · intro j hj
    have hlt : (q.jobs.filter (fun x => x.id ≠ j.id)).length < q.jobs.length :=
      List.length_filter_lt_length_iff_exists.mpr ⟨j, hj, by simp⟩
    have hcap : ¬ q.capacity ≤ (q.jobs.filter (fun x => x.id ≠ j.id)).length := by
      omega
    simp only [JobQueue.submit, JobQueue.finish, if_neg hp]
    rw [if_neg hcap]
    exact ⟨_, _, rfl⟩

/-- C6 witness: a one-slot queue holding one running job rejects a new
submission with `QueueFull`; after that job finishes and leaves, the same
submission is admitted. -/
theorem C6_queue_full_rejection_witness :
    JobQueue.submit
        { capacity := 1, nextId := 1,
          jobs := [{ id := 0, prompt := "p", status := JobStatus.Running,
                     result := none }] } "calm piano" =
      Except.error AdmissionError.QueueFull ∧
    (∃ i q', JobQueue.submit
        (JobQueue.finish
          { capacity := 1, nextId := 1,
            jobs := [{ id := 0, prompt := "p", status := JobStatus.Running,
                       result := none }] } 0) "calm piano" = Except.ok (i, q')) :=
  ⟨(C6_queue_full_rejection _ "calm piano" (by decide) rfl).1,
   (C6_queue_full_rejection _ "calm piano" (by decide) rfl).2
     { id := 0, prompt := "p", status := JobStatus.Running, result := none }
     (by simp)⟩

/-- C7: a Job's status only moves forward along
`Queued → Running → Streaming → {Completed | Failed | Cancelled}`: every
operation is monotone in rank, a terminal Job is never changed again, the
`result` field changes only on the transition into a terminal state (where
it becomes set), and the result-set-iff-terminal invariant is preserved. -/
theorem C7_status_monotonic (j : Job) (op : JobOp) :
    (j.status.rank ≤ (j.applyOp op).status.rank) ∧
    (j.status.isTerminal = true → j.applyOp op = j) ∧
    ((j.applyOp op).result ≠ j.result →
      j.status.isTerminal = false ∧ (j.applyOp op).status.isTerminal = true ∧
      (j.applyOp op).result ≠ none) ∧
    ((j.result = none ↔ j.status.isTerminal = false) →
      ((j.applyOp op).result = none ↔ (j.applyOp op).status.isTerminal = false)) := by
  rcases j with ⟨jid, prompt, st, res⟩
  cases op <;> cases st <;>
    simp [Job.applyOp, JobStatus.rank, JobStatus.isTerminal]

/-- C7 witness: an operation on an already-`Completed` Job leaves it
unchanged. -/
theorem C7_status_monotonic_witness :
    Job.applyOp
        { id := 0, prompt := "p", status := JobStatus.Completed,
          result := some (JobResult.artifact "a") } JobOp.start =
      { id := 0, prompt := "p", status := JobStatus.Completed,
        result := some (JobResult.artifact "a") } :=
  (C7_status_monotonic _ JobOp.start).2.1 rfl

lemma eventsFrom_seq_ge (jid : Nat) (items : List PipelineItem) (oc : Outcome) :
    ∀ s, ∀ e ∈ eventsFrom jid s items oc, s ≤ e.sequence := by
  induction items with
  | nil =>
    intro s e he
    simp [eventsFrom] at he
    subst he
    simp
  | cons it rest ih =>
    intro s e he
    simp [eventsFrom] at he
    rcases he with rfl | he
    · simp
    · exact Nat.le_trans (Nat.le_succ s) (ih (s + 1) e he)

lemma eventsFrom_pairwise (jid : Nat) (items : List PipelineItem) (oc : Outcome) :
    ∀ s, List.Pairwise (fun a b => a.sequence < b.sequence)
      (eventsFrom jid s items oc) := by
  induction items with
  | nil => intro s; simp [eventsFrom]
  | cons it rest ih =>
    intro s
    simp only [eventsFrom, List.pairwise_cons]
    exact ⟨fun e he => Nat.lt_of_lt_of_le (Nat.lt_succ_self s)
      (eventsFrom_seq_ge jid rest oc (s + 1) e he), ih (s + 1)⟩

lemma eventsFrom_terminal_count (jid : Nat) (items : List PipelineItem)
    (oc : Outcome) : ∀ s,
    (eventsFrom jid s items oc).countP (fun e => e.payload.isTerminal) = 1 := by
  induction items with
  | nil =>
    intro s
    cases oc <;> simp [eventsFrom, outcomePayload, EventPayload.isTerminal]
  | cons it rest ih =>
    intro s
    have hnt : (itemPayload it).isTerminal = false := by cases it <;> rfl
    simp [eventsFrom, List.countP_cons, hnt, ih (s + 1)]

lemma eventsFrom_drop_terminal_count (jid : Nat) (items : List PipelineItem)
    (oc : Outcome) : ∀ s k, k < (eventsFrom jid s items oc).length →
    ((eventsFrom jid s items oc).drop k).countP
      (fun e => e.payload.isTerminal) = 1 := by
  induction items with
  | nil =>
    intro s k hk
    simp [eventsFrom] at hk
    subst hk
    simpa using eventsFrom_terminal_count jid [] oc s
  | cons it rest ih =>
    intro s k hk
    cases k with
    | zero => simpa using eventsFrom_terminal_count jid (it :: rest) oc s
    | succ k' =>
      simp only [eventsFrom, List.drop_succ_cons]
      apply ih (s + 1) k'
      simp [eventsFrom] at hk
      omega

/-- C5: the events delivered to any single subscriber of a job — also one
that attaches after `k` events have already been published — are
non-decreasing in `sequence`, contain no duplicate delivery, and contain
exactly one terminal event. -/
theorem C5_subscriber_event_stream (jid k : Nat) (items : List PipelineItem)
    (oc : Outcome) (hk : k < (jobEvents jid items oc).length) :
    List.Pairwise (fun a b => a.sequence ≤ b.sequence)
      (deliveredEvents jid items oc k) ∧
    List.Pairwise (fun a b => a ≠ b) (deliveredEvents jid items oc k) ∧
    (deliveredEvents jid items oc k).countP
      (fun e => e.payload.isTerminal) = 1 := by
  have hd : List.Pairwise (fun a b => a.sequence < b.sequence)
      (deliveredEvents jid items oc k) :=
    (eventsFrom_pairwise jid items oc 0).sublist
      (List.drop_sublist k (jobEvents jid items oc))
  refine ⟨hd.imp (fun h => Nat.le_of_lt h),
    hd.imp (fun h he => absurd (he ▸ h) (lt_irrefl _)), ?_⟩
  exact eventsFrom_drop_terminal_count jid items oc 0 k hk

/-- C5 witness: a subscriber present from the start of a job that emits one
progress event and completes receives an ordered, duplicate-free stream
with exactly one terminal event. -/
theorem C5_subscriber_event_stream_witness :
    List.Pairwise (fun a b => a.sequence ≤ b.sequence)
      (deliveredEvents 0 [PipelineItem.Progress 50] (Outcome.Done "a") 0) ∧
    List.Pairwise (fun a b => a ≠ b)
      (deliveredEvents 0 [PipelineItem.Progress 50] (Outcome.Done "a") 0) ∧
    (deliveredEvents 0 [PipelineItem.Progress 50] (Outcome.Done "a") 0).countP
      (fun e => e.payload.isTerminal) = 1 :=
  C5_subscriber_event_stream 0 0 [PipelineItem.Progress 50] (Outcome.Done "a")
    (by decide)

end MusicaAI
